import Mathlib

/-!
# Verification of the markso-imessage-relay provisioning and auth subsystem

Shallow embedding of the secure device-provisioning and authenticated
webhook-relay subsystem of `marksohq/markso-imessage-relay`:

* `KeypairService` (Keychain-backed identity and secret store,
  `ensureKeypair`, sealed-box wrappers, credential clearing);
* the `AuthMiddleware` Koa middleware (bearer/legacy-param token extraction,
  Keychain-then-SQLite password resolution, trim-and-compare);
* the `WebhookService` dispatcher with its heartbeat-aware interpretation of
  responses ("could not get relay server" marker detection);
* the `reset-app` IPC handler;
* the `handleConnectSecure` provisioning flow of `ProvisionTokenScreen`
  (decrypt-then-store ordering, tunnel-install retry loop).

JavaScript `string | null` values are modelled as `Option String`, with JS
truthiness (`null`/`undefined` and `""` are falsy) made explicit.  Values that
cross a `String(...)` coercion or a JSON body are modelled by small JS-value
types.  Fallible operations return `Option`/explicit outcome types.
-/

namespace Relay

/-- JS truthiness of a `string | null | undefined` value: `null`/`undefined`
(`none`) and the empty string are falsy, every other string is truthy. -/
def jsTruthy : Option String → Bool
  | none => false
  | some s => s ≠ ""

/-! ## Identity & Secret Store (`KeypairService`, Keychain-backed)

The five Keychain entries used by `KeypairService`:
`device_private_key`, `device_public_key`, `device_id` (service
`com.imessagerelay.device`) and `server_password`, `webhook_secret`
(service `com.imessagerelay.server`).  `none` models an absent entry. -/

structure SecretStore where
  devicePrivateKey : Option String
  devicePublicKey : Option String
  deviceId : Option String
  serverPassword : Option String
  webhookSecret : Option String
  deriving Repr, DecidableEq

/-- The record returned by `KeypairService.ensureKeypair`. -/
structure KeypairResult where
  publicKey : String
  privateKey : String
  deviceId : String
  isNew : Bool
  deriving Repr, DecidableEq

/-- `KeypairService.ensureKeypair`: if private key, public key and device id
are all present (JS-truthy) in the Keychain, return them with `isNew = false`
and leave the store untouched; otherwise generate a fresh keypair (modelled by
the `freshPub`/`freshPriv` parameters, the base64 encodings produced by
`sodium.crypto_box_keypair`), reuse the stored device id when it is truthy and
otherwise take a fresh uuid (`freshId`), persist all three fields, and return
them with `isNew = true`. -/
def ensureKeypair (st : SecretStore) (freshPub freshPriv freshId : String) :
    KeypairResult × SecretStore :=
  if jsTruthy st.devicePrivateKey && jsTruthy st.devicePublicKey && jsTruthy st.deviceId then
    ({ publicKey := st.devicePublicKey.getD ""
       privateKey := st.devicePrivateKey.getD ""
       deviceId := st.deviceId.getD ""
       isNew := false }, st)
  else
    let deviceId := if jsTruthy st.deviceId then st.deviceId.getD "" else freshId
    ({ publicKey := freshPub
       privateKey := freshPriv
       deviceId := deviceId
       isNew := true },
     { st with devicePrivateKey := some freshPriv
               devicePublicKey := some freshPub
               deviceId := some deviceId })

/-- `KeypairService.clearServerCredentials`: deletes `server_password` and
`webhook_secret` only; the device keypair entries are untouched. -/
def clearServerCredentials (st : SecretStore) : SecretStore :=
  { st with serverPassword := none, webhookSecret := none }

/-- `KeypairService.clearKeypair`: deletes the private key, public key and
device id entries. -/
def clearKeypair (st : SecretStore) : SecretStore :=
  { st with devicePrivateKey := none, devicePublicKey := none, deviceId := none }

/-- `KeypairService.clearAllCredentials`: `clearKeypair` then
`clearServerCredentials`. -/
def clearAllCredentials (st : SecretStore) : SecretStore :=
  clearServerCredentials (clearKeypair st)

/-- The `reset-app` IPC handler (`ipcService`): stops services, then clears
the Keychain via `KeypairService.clearServerCredentials()` (a clearing failure
is caught and ignored), then removes the application data directory (the
config database, not the Keychain) and relaunches.  Its effect on the Secret
Store is exactly `clearServerCredentials`. -/
def resetApp (st : SecretStore) : SecretStore :=
  clearServerCredentials st

/-! ## Sealed-Box Codec -/

/-- A sealed-box ciphertext: `crypto_box_seal` output, addressed to the
recipient public key it was sealed against. -/
structure Sealed where
  toPub : String
  payload : String
  deriving Repr, DecidableEq

/-- Modelled from the spec: libsodium's keypair derivation (the library behind
`KeypairService` is external to the repository).  `pubOf priv` is the public
key matching a private key; any injective map models X25519 key derivation
(base64-encoded keys are modelled directly as strings, eliding the base64
transport which round-trips through `Buffer.from(_, 'base64')`). -/
def pubOf (priv : String) : String :=
  "pub:" ++ priv

/-- Modelled from the spec: `sodium.crypto_box_seal` — anonymous public-key
encryption; only the holder of the matching private key can open the box. -/
def sealBox (plaintext : String) (recipientPub : String) : Sealed :=
  { toPub := recipientPub, payload := plaintext }

/-- Modelled from the spec: `sodium.crypto_box_seal_open` — fails closed
(throws, modelled as `none`) unless the supplied keypair is the valid keypair
whose public key the box was sealed to; on success returns exactly the sealed
plaintext. -/
def sealOpen (c : Sealed) (pub priv : String) : Option String :=
  if pubOf priv = c.toPub ∧ pub = c.toPub then some c.payload else none

/-- `KeypairService.decryptSealedBox`: reads the device public and private
keys from the Keychain; if either is absent (JS-falsy) returns `null`;
otherwise opens the sealed box, returning `null` on any decryption failure
(the `catch` block) and the plaintext on success. -/
def decryptSealedBox (st : SecretStore) (sealed : Sealed) : Option String :=
  let publicKey := st.devicePublicKey
  let privateKey := st.devicePrivateKey
  if jsTruthy publicKey && jsTruthy privateKey then
    sealOpen sealed (publicKey.getD "") (privateKey.getD "")
  else
    none

/-- `KeypairService.encryptSealedBox`: seals a message to the given public
key, falling back to the device's own stored public key when the argument is
JS-falsy; throws (`none`) when no public key is available. -/
def encryptSealedBox (st : SecretStore) (message : String)
    (publicKeyB64 : Option String) : Option Sealed :=
  let publicKey := if jsTruthy publicKeyB64 then publicKeyB64 else st.devicePublicKey
  if jsTruthy publicKey then
    some (sealBox message (publicKey.getD ""))
  else
    none

/-! ## Auth Gate (`AuthMiddleware`) -/

/-- JavaScript regex `\s` character class (whitespace as matched by
`/^\s*Bearer\s+(.*)$/i` and removed by `String.prototype.trim`). -/
def isJsWhitespace (c : Char) : Bool :=
  let n := c.toNat
  n == 0x20 || n == 0x9 || n == 0xa || n == 0xb || n == 0xc || n == 0xd ||
  n == 0xa0 || n == 0x1680 || (decide (0x2000 ≤ n) && decide (n ≤ 0x200a)) ||
  n == 0x2028 || n == 0x2029 || n == 0x202f || n == 0x205f || n == 0x3000 ||
  n == 0xfeff

/-- JavaScript line terminators, which `.` does not match in a regex without
the `s` flag. -/
def isLineTerminator (c : Char) : Bool :=
  let n := c.toNat
  n == 0xa || n == 0xd || n == 0x2028 || n == 0x2029

/-- The capture of `header.match(/^\s*Bearer\s+(.*)$/i)?.[1]`: skip leading
whitespace, match `Bearer` case-insensitively, require at least one whitespace
character, and capture the remainder — which must contain no line terminator,
since `.` does not match one and `$` anchors at the end.  `none` models a
failed match (`?.[1]` yielding `undefined`). -/
def matchBearer (header : String) : Option String :=
  match header.toList.dropWhile isJsWhitespace with
  | b :: e :: a :: r :: e2 :: r2 :: rest =>
    if b.toLower == 'b' && e.toLower == 'e' && a.toLower == 'a' &&
        r.toLower == 'r' && e2.toLower == 'e' && r2.toLower == 'r' then
      let ws := rest.takeWhile isJsWhitespace
      let tok := rest.dropWhile isJsWhitespace
      if ws.isEmpty then none
      else if tok.any isLineTerminator then none
      else some (String.mk tok)
    else none
  | _ => none

/-- A JavaScript value as returned by `Server().repo.getConfig(...)`,
restricted to the shapes the middleware can receive for a config entry:
absent (`undefined`), `null`, or a string. -/
inductive JsVal where
  | undef
  | nullv
  | str (s : String)
  deriving Repr, DecidableEq

/-- The JavaScript `String(...)` coercion applied by
`String(Server().repo.getConfig("password") as string)`. -/
def jsValToString : JsVal → String
  | .undef => "undefined"
  | .nullv => "null"
  | .str s => s

/-- Outcome of `await KeypairService.getServerPassword()` inside its
`try`/`catch`: either a returned `string | null`, or a thrown error. -/
inductive KeychainRead where
  | ok (v : Option String)
  | threw
  deriving Repr, DecidableEq

/-- Outcome of `Server().repo.getConfig("password")` inside its
`try`/`catch`: either a returned JS value, or a thrown error.
Modelled from the spec for the missing `ServerRepository.getConfig` (not under
`src/`): per §4.1, read accessors return absence rather than throw when the
entry is unset, so an unset password is `ok .undef` (or `ok .nullv`); `threw`
models the store itself being unavailable. -/
inductive ConfigRead where
  | ok (v : JsVal)
  | threw
  deriving Repr, DecidableEq

/-- The inbound request fields read by `AuthMiddleware`: the
`authorization` header and the legacy query parameters `guid`, `password`,
`token` (`none` = absent). -/
structure AuthRequest where
  authorization : Option String
  guid : Option String
  password : Option String
  token : Option String
  deriving Repr, DecidableEq

/-- Outcome of the middleware: crash with a `TypeError` (reading `.match` of
`undefined`), the two `Unauthorized` throws, the `ServerError` throw, or
passing the request on to `next()`. -/
inductive AuthOutcome where
  | typeError
  | unauthorizedMissing
  | unauthorizedInvalid
  | serverErrorMisconfigured
  | pass
  deriving Repr, DecidableEq

/-- The candidate token
`authHeader.match(/^\s*Bearer\s+(.*)$/i)?.[1] || (params?.guid ?? params?.password ?? params?.token)`,
evaluated when the header is present: an empty bearer capture is falsy and
falls through to the nullish-coalesced query parameters. -/
def candidateToken (req : AuthRequest) (header : String) : Option String :=
  let fallback := (req.guid <|> req.password) <|> req.token
  match matchBearer header with
  | some t => if t = "" then fallback else some t
  | none => fallback

/-- Modelled from the spec: `safeTrim` (in `@server/helpers/utils`, not under
`src/`) — per §4.4, candidate and canonical values are compared "after
trimming surrounding whitespace from both". -/
def safeTrim (s : String) : String :=
  String.mk ((s.toList.dropWhile isJsWhitespace).reverse.dropWhile isJsWhitespace).reverse

/-- The canonical password resolution of `AuthMiddleware`: Keychain first
(a thrown read is caught, leaving `null`); if the result is JS-falsy, fall
back to `String(Server().repo.getConfig("password"))` (a thrown read is
caught, keeping the previous value). -/
def resolvePassword (keychain : KeychainRead) (config : ConfigRead) : Option String :=
  let p1 : Option String := match keychain with
    | .ok v => v
    | .threw => none
  if jsTruthy p1 then p1
  else match config with
    | .ok v => some (jsValToString v)
    | .threw => p1

/-- `AuthMiddleware` (Koa): extract a candidate token from the
`Authorization` header with query-parameter fallback — note the source reads
`authHeader.match(...)` without optional chaining, so an absent header throws
a `TypeError`; reject a falsy token with `Unauthorized`; resolve the canonical
password (Keychain, then `String(getConfig("password"))`); reject a falsy
resolution with `ServerError`; finally compare `safeTrim(password)` with
`safeTrim(token)`, passing to `next()` on equality and throwing `Unauthorized`
otherwise. -/
def authMiddleware (req : AuthRequest) (keychain : KeychainRead)
    (config : ConfigRead) : AuthOutcome :=
  match req.authorization with
  | none => .typeError
  | some header =>
    let token := candidateToken req header
    if jsTruthy token = false then .unauthorizedMissing
    else
      let password := resolvePassword keychain config
      if jsTruthy password = false then .serverErrorMisconfigured
      else if safeTrim (password.getD "") = safeTrim (token.getD "") then .pass
      else .unauthorizedInvalid

/-! ## Webhook Dispatcher (`WebhookService`) and heartbeat interpretation

JSON bodies are modelled by `JData` (strings, objects, `null` — the shapes the
dispatcher inspects).  `JSON.stringify` is modelled for those shapes, with
`"` and `\` escaping; control-character escapes are elided. -/

mutual

inductive JData where
  | jstr (s : String)
  | jnull
  | jobj (fields : JFields)

inductive JFields where
  | nil
  | cons (key : String) (value : JData) (rest : JFields)

end

/-- `"..."`-escaping used by `JSON.stringify` for `"` and `\`. -/
def jsonEscape (s : String) : String :=
  String.mk (s.toList.flatMap fun c =>
    if c = '\\' then ['\\', '\\'] else if c = '"' then ['\\', '"'] else [c])

/-- `String.prototype.toLowerCase` (ASCII, which covers the marker text). -/
def lowerString (s : String) : String :=
  String.mk (s.toList.map Char.toLower)

/-- Whether `pat` occurs at the head of `s`. -/
def headMatches : List Char → List Char → Bool
  | _, [] => true
  | [], _ :: _ => false
  | c :: cs, p :: ps => c == p && headMatches cs ps

/-- Whether `pat` occurs anywhere in `s`. -/
def containsList (s pat : List Char) : Bool :=
  match s with
  | [] => pat.isEmpty
  | _ :: rest => headMatches s pat || containsList rest pat

mutual

/-- `JSON.stringify` on the modelled JSON shapes. -/
def jsonStringify : JData → String
  | .jstr s => "\"" ++ jsonEscape s ++ "\""
  | .jnull => "null"
  | .jobj fs => "\x7b" ++ jsonStringifyFields fs ++ "\x7d"

def jsonStringifyFields : JFields → String
  | .nil => ""
  | .cons k v .nil => "\"" ++ jsonEscape k ++ "\":" ++ jsonStringify v
  | .cons k v (.cons k2 v2 rest) =>
      "\"" ++ jsonEscape k ++ "\":" ++ jsonStringify v ++ "," ++
        jsonStringifyFields (.cons k2 v2 rest)

end

/-- JS truthiness of a JSON value: `null` and `""` are falsy, objects and
non-empty strings are truthy. -/
def jsTruthyJ : JData → Bool
  | .jstr s => s ≠ ""
  | .jnull => false
  | .jobj _ => true

/-- First value bound to `key` in an object's field list, `none` if absent. -/
def lookupField (key : String) : JFields → Option JData
  | .nil => none
  | .cons k v rest => if k = key then some v else lookupField key rest

/-- The optional-chained property read `val?.key`: `undefined` on
`undefined`/`null`/string receivers and on absent keys. -/
def fieldOf (v : Option JData) (key : String) : Option JData :=
  match v with
  | some (.jobj fs) => lookupField key fs
  | _ => none

/-- The JS `a || b` operator on optional values: `a` when truthy, else `b`. -/
def pickTruthy (a b : Option JData) : Option JData :=
  match a with
  | some v => if jsTruthyJ v then some v else b
  | none => b

/-- Substring test: `s.includes(pat)`. -/
def strContains (s pat : String) : Bool :=
  containsList s.toList pat.toList

/-- The marker `WebhookService` looks for: a control-plane body saying it
could not locate the device's relay record. -/
def relayDeletedMarker : String :=
  "could not get relay server"

/-- `checkForError` from `WebhookService.dispatch`'s heartbeat success
handler: falsy data is no error; otherwise treat the body as text
(`JSON.stringify` unless already a string) and search, case-insensitively,
for the relay-deletion marker. -/
def checkForError (data : Option JData) : Bool :=
  match data with
  | none => false
  | some d =>
    if jsTruthyJ d then
      strContains (lowerString (match d with | .jstr s => s | _ => jsonStringify d))
        relayDeletedMarker
    else false

/-- An axios success response as inspected by the dispatcher:
`response?.data`. -/
structure HttpSuccess where
  data : Option JData

/-- An axios error as inspected by the dispatcher: `ex?.response?.data` and
`ex?.message`. -/
structure HttpError where
  responseData : Option JData
  message : Option String

/-- Outcome of one `sendPost` delivery. -/
inductive HttpOutcome where
  | ok (r : HttpSuccess)
  | err (e : HttpError)

/-- UI signals (or their absence) produced by the heartbeat branch of
`dispatch` for one delivery: `relay-server-not-found`, `relay-server-found`,
no emission (error without marker), or a crash (`.toLowerCase` called on a
non-string picked by the `||` chain). -/
inductive HbSignal where
  | relayNotFound
  | relayFound
  | noSignal
  | crash
  deriving Repr, DecidableEq

/-- The `errorMessage` computed by the heartbeat error handler:
`typeof errorData === 'string' ? errorData : errorData?.message || errorData?.error || ex?.message || ''`. -/
def errorMessageVal (e : HttpError) : JData :=
  match e.responseData with
  | some (.jstr s) => .jstr s
  | ed =>
    (pickTruthy (fieldOf ed "message")
      (pickTruthy (fieldOf ed "error")
        (pickTruthy (e.message.map .jstr) (some (.jstr ""))))).getD (.jstr "")

/-- The heartbeat branch of `WebhookService.dispatch` for one delivery: on a
success response, emit `relay-server-not-found` when `checkForError` sees the
marker and `relay-server-found` otherwise; on an error, search the computed
`errorMessage` for the marker, emitting `relay-server-not-found` when found
and only logging (no emission) otherwise. -/
def heartbeatInterpret : HttpOutcome → HbSignal
  | .ok r => if checkForError r.data then .relayNotFound else .relayFound
  | .err e =>
    match errorMessageVal e with
    | .jstr s =>
      if strContains (lowerString s) relayDeletedMarker then .relayNotFound else .noSignal
    | _ => .crash

/-- A registered webhook as read by `dispatch` (its `events` column, already
`JSON.parse`d into a string array). -/
structure Webhook where
  url : String
  events : List String

/-- A dispatched event. -/
structure WebhookEvent where
  type : String
  data : JData

/-- The UI signals produced by `WebhookService.dispatch`: webhooks whose
`events` contain neither `"*"` nor the event type are skipped; heartbeat
deliveries are interpreted by `heartbeatInterpret`; for any other event type
failures are logged only and nothing is emitted. -/
def dispatchSignals (webhooks : List Webhook) (ev : WebhookEvent)
    (outcome : Webhook → HttpOutcome) : List HbSignal :=
  if ev.type = "heartbeat" then
    (webhooks.filter fun w => w.events.contains "*" || w.events.contains ev.type).map
      fun w => heartbeatInterpret (outcome w)
  else []

/-! ## Provisioning flow (`handleConnectSecure` in `ProvisionTokenScreen`) -/

/-- Result of one `install-cloudflared-service` invocation, as inspected by
the retry loop (`!installResult.success && installResult.cancelled`). -/
structure InstallResult where
  success : Bool
  cancelled : Bool
  deriving Repr, DecidableEq

/-- The final install result after the cancellation retry loop: starting from
the first attempt, each user-cancelled result is followed by the next
re-invocation's result; `none` models a trace that ends while the loop is
still waiting (no further invocation observed). -/
def finalInstall : InstallResult → List InstallResult → Option InstallResult
  | r, [] => if !r.success && r.cancelled then none else some r
  | r, x :: xs => if !r.success && r.cancelled then finalInstall x xs else some r

/-- What resumes the retry loop: a click on the submit button when
`document.querySelector('button[type="submit"]')` finds one, otherwise the
`setTimeout(resolve, 1000)` fallback. -/
inductive RetryTrigger where
  | userClick
  | timer
  deriving Repr, DecidableEq

/-- The trigger used for one retry iteration, determined by whether a submit
button was found in the document. -/
def retryTrigger (submitButtonFound : Bool) : RetryTrigger :=
  if submitButtonFound then .userClick else .timer

/-- The trigger of each executed re-invocation of the tunnel installer, one
per retry-loop iteration that reaches the next `install-cloudflared-service`
call. -/
def retryTriggers : InstallResult → List InstallResult → Bool → List RetryTrigger
  | _, [], _ => []
  | r, x :: xs, submitButtonFound =>
    if !r.success && r.cancelled then
      retryTrigger submitButtonFound :: retryTriggers x xs submitButtonFound
    else []

/-- A write of one credential into the Secret Store (the
`store-server-password` / `store-webhook-secret` IPC handlers calling
`KeypairService.storeServerPassword` / `storeWebhookSecret`). -/
inductive SecretWrite where
  | serverPassword (value : String)
  | webhookSecret (value : String)
  deriving Repr, DecidableEq

/-- The environment of one `handleConnectSecure` run: outcomes of each IPC
step, in flow order.  `decryptPassword`/`decryptTunnelToken`/
`decryptWebhookSecret` are the plaintexts of the `keypair-decrypt-sealed`
calls on `sealed_password_b64`, `sealed_tunnel_token_b64` and
`sealed_webhook_secret_b64`, `none` when that handler reported
`success: false` (decryption failure). -/
structure ProvisionEnv where
  keypairOk : Bool
  exchangeOk : Bool
  decryptPassword : Option String
  decryptTunnelToken : Option String
  decryptWebhookSecret : Option String
  installFirst : InstallResult
  installRetries : List InstallResult
  submitButtonFound : Bool
  storePasswordOk : Bool
  storeWebhookOk : Bool
  deriving Repr, DecidableEq

/-- `handleConnectSecure` (steps 1–5, the Secret-Store-affecting slice):
generate/retrieve the keypair, exchange the token, decrypt the three sealed
fields — throwing (aborting with no writes) on the first failure — run the
tunnel installer with its cancellation retry loop, then store the server
password and the webhook secret in that order.  Returns the Secret Store
writes performed and whether the flow reached the configuration steps.
A store failure (`success: false` from the IPC handler, e.g. a falsy value or
a Keychain error before the write persisted) throws and aborts the flow. -/
def handleConnectSecure (env : ProvisionEnv) : List SecretWrite × Bool :=
  if !env.keypairOk then ([], false)
  else if !env.exchangeOk then ([], false)
  else match env.decryptPassword with
  | none => ([], false)
  | some serverPassword =>
    match env.decryptTunnelToken with
    | none => ([], false)
    | some _tunnelToken =>
      match env.decryptWebhookSecret with
      | none => ([], false)
      | some webhookSecret =>
        match finalInstall env.installFirst env.installRetries with
        | none => ([], false)
        | some r =>
          if !r.success then ([], false)
          else if serverPassword = "" then ([], false)
          else if !env.storePasswordOk then ([], false)
          else if webhookSecret = "" then ([SecretWrite.serverPassword serverPassword], false)
          else if !env.storeWebhookOk then ([SecretWrite.serverPassword serverPassword], false)
          else ([SecretWrite.serverPassword serverPassword,
                 SecretWrite.webhookSecret webhookSecret], true)

/-! ## Helper lemmas -/

theorem jsTruthy_none_eq : jsTruthy none = false := rfl

theorem jsTruthy_some_eq (s : String) : jsTruthy (some s) = decide (s ≠ "") := rfl

theorem jsTruthy_eq_true {o : Option String} (h : jsTruthy o = true) :
    o = some (o.getD "") ∧ o.getD "" ≠ "" := by
  cases o with
  | none => simp [jsTruthy] at h
  | some s => simpa [jsTruthy] using h

theorem ensureKeypair_complete (st : SecretStore) (p q d : String)
    (h : (jsTruthy st.devicePrivateKey && jsTruthy st.devicePublicKey &&
      jsTruthy st.deviceId) = true) :
    ensureKeypair st p q d =
      ({ publicKey := st.devicePublicKey.getD ""
         privateKey := st.devicePrivateKey.getD ""
         deviceId := st.deviceId.getD ""
         isNew := false }, st) := by
  simp only [ensureKeypair]
  rw [if_pos h]

theorem ensureKeypair_incomplete (st : SecretStore) (p q d : String)
    (h : (jsTruthy st.devicePrivateKey && jsTruthy st.devicePublicKey &&
      jsTruthy st.deviceId) = false) :
    ensureKeypair st p q d =
      ({ publicKey := p
         privateKey := q
         deviceId := if jsTruthy st.deviceId then st.deviceId.getD "" else d
         isNew := true },
       { st with devicePrivateKey := some q
                 devicePublicKey := some p
                 deviceId :=
                   some (if jsTruthy st.deviceId then st.deviceId.getD "" else d) }) := by
  simp only [ensureKeypair]
  rw [if_neg (by simp [h])]

/-! ## Claim theorems -/

/-- C1: during provisioning, if decryption of any one of the three sealed
fields (sealed password, sealed tunnel token, sealed webhook secret) fails,
then neither `serverPassword` nor `webhookSecret` is written to the Secret
Store: the `handleConnectSecure` run performs no Secret Store writes at
all. -/
theorem provisioning_decrypt_failure_writes_nothing (env : ProvisionEnv)
    (h : env.decryptPassword = none ∨ env.decryptTunnelToken = none ∨
         env.decryptWebhookSecret = none) :
    (handleConnectSecure env).1 = [] := by
  unfold handleConnectSecure
  rcases h with h | h | h <;> (repeat' split) <;> simp_all

/-- Witness for C1: a run whose sealed-password decryption fails performs no
Secret Store writes even though the other steps would succeed. -/
theorem provisioning_decrypt_failure_writes_nothing_witness :
    (handleConnectSecure
      ⟨true, true, none, some "tt", some "wh", ⟨true, false⟩, [], false, true, true⟩).1
        = [] :=
  provisioning_decrypt_failure_writes_nothing
    ⟨true, true, none, some "tt", some "wh", ⟨true, false⟩, [], false, true, true⟩
    (Or.inl rfl)

/-- C8 counterexample: the claim that a tunnel-install retry after a
user-cancelled elevation prompt is never triggered on a timer is false — when
`document.querySelector('button[type="submit"]')` finds no submit button, the
retry loop resumes via `setTimeout(resolve, 1000)`, so the next installer
invocation is timer-triggered. -/
theorem tunnel_retry_timer_cex :
    RetryTrigger.timer ∈ retryTriggers ⟨false, true⟩ [⟨true, false⟩] false := by
  decide

/-- C8 amended: when a submit button is found in the document, every executed
re-invocation of the tunnel installer after a cancellation is triggered by a
user click, never by a timer. -/
theorem tunnel_retry_user_triggered (r : InstallResult) (rs : List InstallResult)
    (t : RetryTrigger) (h : t ∈ retryTriggers r rs true) :
    t = RetryTrigger.userClick := by
  induction rs generalizing r with
  | nil => simp [retryTriggers] at h
  | cons x xs ih =>
    simp only [retryTriggers] at h
    split at h
    · rcases List.mem_cons.mp h with h1 | h2
      · simpa [retryTrigger] using h1
      · exact ih x h2
    · simp at h

/-- Witness for the amended C8: with a submit button present, the single
retry of a cancelled first install is user-click-triggered. -/
theorem tunnel_retry_user_triggered_witness :
    RetryTrigger.userClick ∈ retryTriggers ⟨false, true⟩ [⟨true, false⟩] true ∧
    RetryTrigger.userClick = RetryTrigger.userClick :=
  ⟨by decide,
   tunnel_retry_user_triggered ⟨false, true⟩ [⟨true, false⟩] RetryTrigger.userClick
     (by decide)⟩

/-- C9 counterexample: the claim that application reset wipes the device
keypair and device id is false — the `reset-app` handler calls
`clearServerCredentials()`, not `clearAllCredentials()`, so on a fully
populated store the private key and device id are still present after
reset. -/
theorem resetApp_keeps_device_identity_cex :
    (resetApp ⟨some "priv", some "pub", some "dev", some "pw", some "wh"⟩).devicePrivateKey
        ≠ none ∧
    (resetApp ⟨some "priv", some "pub", some "dev", some "pw", some "wh"⟩).deviceId
        ≠ none := by
  decide

/-- C9 amended: after `reset-app` completes, the server password and webhook
secret are absent from the Secret Store, while the device keypair and device
id are left exactly as they were. -/
theorem resetApp_clears_only_server_credentials (st : SecretStore) :
    (resetApp st).serverPassword = none ∧ (resetApp st).webhookSecret = none ∧
    (resetApp st).devicePrivateKey = st.devicePrivateKey ∧
    (resetApp st).devicePublicKey = st.devicePublicKey ∧
    (resetApp st).deviceId = st.deviceId := by
  simp [resetApp, clearServerCredentials]

/-- C2 (code-bug demonstration): with a candidate token present, an empty
Keychain and an unset config password, the Auth Gate does not fail with
`ServerError` — `String(getConfig("password"))` coerces the absent value to
the truthy string "undefined", so the gate proceeds to the comparison and
throws `Unauthorized` for an ordinary token, and even accepts a client whose
bearer token is the literal string "undefined". -/
theorem authGate_unset_config_not_serverError :
    authMiddleware ⟨some "Bearer abc", none, none, none⟩
        (KeychainRead.ok none) (ConfigRead.ok .undef) = .unauthorizedInvalid ∧
    authMiddleware ⟨some "Bearer undefined", none, none, none⟩
        (KeychainRead.ok none) (ConfigRead.ok .undef) = .pass := by
  decide

/-- C4 (code-bug demonstration): a request with no `Authorization` header
does not yield `Unauthorized` — the source reads `authHeader.match(...)`
without optional chaining, so the middleware crashes with a `TypeError`
whether or not legacy query parameters carry a valid credential. -/
theorem authGate_missing_header_crashes :
    authMiddleware ⟨none, none, none, none⟩
        (KeychainRead.ok (some "pw")) (ConfigRead.ok (.str "pw")) = .typeError ∧
    authMiddleware ⟨none, some "pw", none, none⟩
        (KeychainRead.ok (some "pw")) (ConfigRead.ok (.str "pw")) = .typeError := by
  decide

theorem pubOf_ne_empty (s : String) : pubOf s ≠ "" := by
  intro h
  have hl := congrArg String.length h
  simp [pubOf, String.length_append] at hl
  exact absurd hl.1 (by decide)

/-- C5: sealing a plaintext `P` to a device public key and opening it through
`KeypairService` with the matching keypair returns exactly `P`; opening the
same sealed box on a device holding any other keypair (`pubOf k2 ≠ pubOf k`)
fails closed, returning no plaintext.  The first conjunct ties
`encryptSealedBox` (falling back to the device's stored public key) to the
sealed box the control plane would produce. -/
theorem sealedBox_roundtrip_fail_closed (P k k2 : String) (hk : k ≠ "")
    (hk2 : k2 ≠ "") (hne : pubOf k2 ≠ pubOf k) :
    encryptSealedBox ⟨some k, some (pubOf k), some "dev", none, none⟩ P none
        = some (sealBox P (pubOf k)) ∧
    decryptSealedBox ⟨some k, some (pubOf k), some "dev", none, none⟩
        (sealBox P (pubOf k)) = some P ∧
    decryptSealedBox ⟨some k2, some (pubOf k2), some "dev", none, none⟩
        (sealBox P (pubOf k)) = none := by
  refine ⟨?_, ?_, ?_⟩
  · simp [encryptSealedBox, jsTruthy, pubOf_ne_empty, sealBox]
  · simp [decryptSealedBox, jsTruthy, pubOf_ne_empty, hk, sealOpen, sealBox]
  · simp [decryptSealedBox, jsTruthy, pubOf_ne_empty, hk2, sealOpen, sealBox, hne]

/-- Witness for C5 at concrete keys and plaintext. -/
theorem sealedBox_roundtrip_fail_closed_witness :
    pubOf "k2" ≠ pubOf "k1" ∧
    decryptSealedBox ⟨some "k1", some (pubOf "k1"), some "dev", none, none⟩
        (sealBox "hello" (pubOf "k1")) = some "hello" ∧
    decryptSealedBox ⟨some "k2", some (pubOf "k2"), some "dev", none, none⟩
        (sealBox "hello" (pubOf "k1")) = none :=
  ⟨by decide,
   (sealedBox_roundtrip_fail_closed "hello" "k1" "k2" (by decide) (by decide)
      (by decide)).2⟩

/-- C6: two `ensureKeypair` invocations without an intervening clear return
identical `deviceId` and `publicKey`, the second invocation reports
`isNew = false`, and it leaves the store exactly as the first invocation left
it (the fresh keypair components and uuid generated for the first call are
non-empty strings, as `crypto_box_keypair` base64 output and `uuidv4` always
are). -/
theorem ensureIdentity_stable (st : SecretStore) (p1 q1 d1 p2 q2 d2 : String)
    (hp : p1 ≠ "") (hq : q1 ≠ "") (hd : d1 ≠ "") :
    (ensureKeypair (ensureKeypair st p1 q1 d1).2 p2 q2 d2).1.deviceId
        = (ensureKeypair st p1 q1 d1).1.deviceId ∧
    (ensureKeypair (ensureKeypair st p1 q1 d1).2 p2 q2 d2).1.publicKey
        = (ensureKeypair st p1 q1 d1).1.publicKey ∧
    (ensureKeypair (ensureKeypair st p1 q1 d1).2 p2 q2 d2).1.isNew = false ∧
    (ensureKeypair (ensureKeypair st p1 q1 d1).2 p2 q2 d2).2
        = (ensureKeypair st p1 q1 d1).2 := by
  by_cases h1 :
      (jsTruthy st.devicePrivateKey && jsTruthy st.devicePublicKey &&
        jsTruthy st.deviceId) = true
  · rw [ensureKeypair_complete st p1 q1 d1 h1]
    rw [ensureKeypair_complete st p2 q2 d2 h1]
    simp
  · have h1f : (jsTruthy st.devicePrivateKey && jsTruthy st.devicePublicKey &&
        jsTruthy st.deviceId) = false := Bool.eq_false_iff.mpr h1
    rw [ensureKeypair_incomplete st p1 q1 d1 h1f]
    have hid : (if jsTruthy st.deviceId then st.deviceId.getD "" else d1) ≠ "" := by
      by_cases hD : jsTruthy st.deviceId = true
      · rw [if_pos hD]; exact (jsTruthy_eq_true hD).2
      · rw [if_neg hD]; exact hd
    rw [ensureKeypair_complete _ p2 q2 d2 (by simp [jsTruthy_some_eq, hp, hq, hid])]
    simp

/-- Witness for C6 starting from an empty store. -/
theorem ensureIdentity_stable_witness :
    (ensureKeypair (ensureKeypair ⟨none, none, none, none, none⟩ "P" "Q" "D").2
        "P2" "Q2" "D2").1.isNew = false :=
  (ensureIdentity_stable ⟨none, none, none, none, none⟩ "P" "Q" "D" "P2" "Q2" "D2"
    (by decide) (by decide) (by decide)).2.2.1

/-- C10: when a device id is already stored but the private or public key is
missing, `ensureKeypair` generates and persists a fresh keypair, reuses the
stored device id unchanged, and reports `isNew = true`. -/
theorem ensureIdentity_regenerates_keypair (st : SecretStore) (p q dI dev : String)
    (hdev : st.deviceId = some dev) (hdevt : dev ≠ "")
    (hmiss : jsTruthy st.devicePrivateKey = false ∨
             jsTruthy st.devicePublicKey = false) :
    (ensureKeypair st p q dI).1.deviceId = dev ∧
    (ensureKeypair st p q dI).1.isNew = true ∧
    (ensureKeypair st p q dI).1.publicKey = p ∧
    (ensureKeypair st p q dI).1.privateKey = q ∧
    (ensureKeypair st p q dI).2.deviceId = some dev := by
  have hg : (jsTruthy st.devicePrivateKey && jsTruthy st.devicePublicKey &&
      jsTruthy st.deviceId) = false := by
    rcases hmiss with h | h <;> simp [h]
  rw [ensureKeypair_incomplete st p q dI hg]
  simp [hdev, jsTruthy_some_eq, hdevt]

/-- Witness for C10: a store holding only a public key and a device id gets a
fresh keypair under the same device id. -/
theorem ensureIdentity_regenerates_keypair_witness :
    (ensureKeypair ⟨none, some "P", some "dev", none, none⟩ "P2" "Q2" "D2").1.deviceId
        = "dev" ∧
    (ensureKeypair ⟨none, some "P", some "dev", none, none⟩ "P2" "Q2" "D2").1.isNew
        = true :=
  ⟨(ensureIdentity_regenerates_keypair ⟨none, some "P", some "dev", none, none⟩
      "P2" "Q2" "D2" "dev" rfl (by decide) (Or.inl rfl)).1,
   (ensureIdentity_regenerates_keypair ⟨none, some "P", some "dev", none, none⟩
      "P2" "Q2" "D2" "dev" rfl (by decide) (Or.inl rfl)).2.1⟩

/-- C3: with a candidate token present and a canonical password resolved, the
Auth Gate passes the request to the protected handler if and only if the
candidate equals the canonical password after trimming surrounding whitespace
from both, and on a mismatch it fails with `Unauthorized` (invalid
credential). -/
theorem authGate_accepts_iff_trimmed_match (req : AuthRequest)
    (keychain : KeychainRead) (config : ConfigRead) (header t pw : String)
    (hh : req.authorization = some header)
    (ht : candidateToken req header = some t) (htt : t ≠ "")
    (hpw : resolvePassword keychain config = some pw) (hpwt : pw ≠ "") :
    (authMiddleware req keychain config = .pass ↔ safeTrim pw = safeTrim t) ∧
    (safeTrim pw ≠ safeTrim t →
      authMiddleware req keychain config = .unauthorizedInvalid) := by
  unfold authMiddleware
  rw [hh]
  simp only [ht, hpw, jsTruthy_some_eq]
  by_cases hEq : safeTrim pw = safeTrim t <;> simp [hEq, htt, hpwt]

/-- Witness for C3: a bearer token that matches the Keychain password up to
surrounding whitespace is accepted. -/
theorem authGate_accepts_iff_trimmed_match_witness :
    candidateToken ⟨some "Bearer  secret ", none, none, none⟩ "Bearer  secret "
        = some "secret " ∧
    authMiddleware ⟨some "Bearer  secret ", none, none, none⟩
        (KeychainRead.ok (some " secret")) (ConfigRead.ok .undef) = .pass :=
  ⟨by decide,
   (authGate_accepts_iff_trimmed_match ⟨some "Bearer  secret ", none, none, none⟩
      (KeychainRead.ok (some " secret")) (ConfigRead.ok .undef)
      "Bearer  secret " "secret " " secret" rfl (by decide) (by decide) (by decide)
      (by decide)).1.mpr (by decide)⟩

/-- C7 counterexample: the claim that a relay-not-found signal is emitted
whenever the error body, treated as text, contains the marker is false — for
an error body `{"detail": "Could not get relay server"}` the stringified body
contains the marker, yet the error handler only consults the body's `message`
and `error` fields and the transport error message, so neither signal is
emitted. -/
theorem heartbeat_error_body_marker_missed_cex :
    strContains
      (lowerString (jsonStringify
        (.jobj (.cons "detail" (.jstr "Could not get relay server") .nil))))
      relayDeletedMarker = true ∧
    heartbeatInterpret
      (.err ⟨some (.jobj (.cons "detail" (.jstr "Could not get relay server") .nil)),
             some "Request failed with status code 500"⟩) = .noSignal := by
  decide

/-- C7 amended: for a dispatched heartbeat delivery, `relay-server-found` is
emitted exactly on a success response whose body (treated as text if not
already a string, falsy bodies counting as marker-free) lacks the marker, and
`relay-server-not-found` is emitted exactly when either a success response
body contains the marker, or the error text — the error body itself when it
is a string, otherwise its `message`/`error` field or the transport error's
message as picked by the `||` chain — contains the marker; an error without
the marker emits nothing. -/
theorem heartbeat_marker_signals (o : HttpOutcome) :
    (heartbeatInterpret o = HbSignal.relayFound ↔
      ∃ d, o = .ok ⟨d⟩ ∧ checkForError d = false) ∧
    (heartbeatInterpret o = HbSignal.relayNotFound ↔
      ((∃ d, o = .ok ⟨d⟩ ∧ checkForError d = true) ∨
       (∃ e, o = .err e ∧ ∃ s, errorMessageVal e = .jstr s ∧
          strContains (lowerString s) relayDeletedMarker = true))) := by
  cases o with
  | ok r =>
    cases r with
    | mk d =>
      by_cases hc : checkForError d = true
      · simp [heartbeatInterpret, hc]
      · have hc' : checkForError d = false := Bool.eq_false_iff.mpr hc
        simp [heartbeatInterpret, hc']
  | err e =>
    cases hv : errorMessageVal e with
    | jstr s =>
      by_cases hm : strContains (lowerString s) relayDeletedMarker = true
      · simp [heartbeatInterpret, hv, hm]
      · simp [heartbeatInterpret, hv, hm]
    | jnull => simp [heartbeatInterpret, hv]
    | jobj fs => simp [heartbeatInterpret, hv]

end Relay
